import Mathlib

/-!
Shallow embedding of the GPUOptimizer customer revenue core
(`src/gpu_optimizer_system.py` and `src/global_payment_system.py`).

Python floats are modelled as rationals (all amounts handled by the claims
are exactly representable), SQLite tables as Lean lists, the in-process
`PerformanceCache` and the `functools.lru_cache` memo tables as association
lists, and wall-clock time as an explicit rational parameter threaded through
every operation that reads `time.time()` / `CURRENT_TIMESTAMP`.
Randomness (`secrets.token_urlsafe`) is passed in as an explicit byte list.
-/

namespace GPUOpt

set_option maxRecDepth 10000

/-- Association-list lookup (models Python dict `d.get(k)` /
`k in d` followed by `d[k]`). -/
def alookup {α : Type} (l : List (String × α)) (k : String) : Option α :=
  match l with
  | [] => none
  | (k', v) :: t => if k' = k then some v else alookup t k

/-- Association-list update (models Python dict `d[k] = v`). -/
def aset {α : Type} (l : List (String × α)) (k : String) (v : α) :
    List (String × α) :=
  match l with
  | [] => [(k, v)]
  | (k', v') :: t => if k' = k then (k, v) :: t else (k', v') :: aset t k v

/-- Association-list deletion (models Python dict `d.pop(k, None)`). -/
def adel {α : Type} (l : List (String × α)) (k : String) :
    List (String × α) :=
  l.filter (fun p => !(p.1 == k))

/-! ### SecurityUtils (gpu_optimizer_system.py lines 168-185) -/

/-- A character removed by `SecurityUtils.sanitize_input`:
the regex class in `re.sub(r'[<>"\x27;\x5c]', '', data)`. -/
def isDangerousChar (c : Char) : Bool :=
  c == '<' || c == '>' || c == '"' || c == '\'' || c == ';' || c == '\\'

/-- Python `str.strip()` on a character list: drop leading and trailing
whitespace. -/
def pyStrip (l : List Char) : List Char :=
  ((l.dropWhile Char.isWhitespace).reverse.dropWhile Char.isWhitespace).reverse

/-- Split a character list at every occurrence of the separator character
(Python `str.split(sep)` / the structure `re` imposes around a literal). -/
def splitOnChar (sep : Char) : List Char → List (List Char)
  | [] => [[]]
  | c :: t =>
    let r := splitOnChar sep t
    if c == sep then [] :: r
    else
      match r with
      | h :: t' => (c :: h) :: t'
      | [] => [[c]]

/-- Model of `SecurityUtils.sanitize_input`: remove the dangerous characters, then
Python `.strip()` (whitespace trim), then truncate to 1000 characters. -/
def sanitizeInput (data : String) : String :=
  ((pyStrip (data.toList.filter (fun c => !(isDangerousChar c)))).take 1000).asString

/-- Model of `SecurityUtils.validate_api_key`: the regex `^gopt_[a-zA-Z0-9]\x7b23\x7d$`:
the prefix `gopt_`, a 23-character alphanumeric suffix, 28 characters total. -/
def validApiKey (key : String) : Bool :=
  key.toList.take 5 == "gopt_".toList && key.length == 28 &&
    (key.toList.drop 5).all (fun c => c.isAlpha || c.isDigit)

/-! ### RevenueManager.validate_email (gpu_optimizer_system.py lines 912-933) -/

/-- Character class `[a-zA-Z0-9._%+-]` (the local part of the email regex). -/
def isLocalChar (c : Char) : Bool :=
  c.isAlpha || c.isDigit || c == '.' || c == '_' || c == '%' || c == '+' || c == '-'

/-- Character class `[a-zA-Z0-9.-]` (the domain part of the email regex). -/
def isDomainChar (c : Char) : Bool :=
  c.isAlpha || c.isDigit || c == '.' || c == '-'

/-- The anchored regex `^[a-zA-Z0-9._%+-]+@[a-zA-Z0-9.-]+\.[a-zA-Z]\x7b2,\x7d$`.
None of the character classes contains `@`, so a match forces exactly one `@`;
the final `[a-zA-Z]\x7b2,\x7d$` group must run to the end of the string, so the
literal dot it follows is the last dot of the domain. -/
def emailRegexMatch (s : String) : Bool :=
  match splitOnChar '@' s.toList with
  | [localPart, domain] =>
    localPart.length > 0 && localPart.all isLocalChar &&
    domain.all isDomainChar &&
    (let segs := splitOnChar '.' domain
     decide (segs.length ≥ 2) &&
     (match segs.getLast? with
      | some tld =>
        decide (tld.length ≥ 2) && tld.all (fun c => c.isAlpha) &&
        -- the `[a-zA-Z0-9.-]+` part before the last dot must be nonempty
        decide (tld.length + 1 < domain.length)
      | none => false))
  | _ => false

/-- The suspicious pattern `\.\x7b2,\x7d` (two or more consecutive dots). -/
def hasDoubleDot : List Char → Bool
  | c1 :: c2 :: rest => (c1 == '.' && c2 == '.') || hasDoubleDot (c2 :: rest)
  | _ => false

/-- Model of `RevenueManager.validate_email`: length bound, the email regex, then the
three suspicious-pattern rejections.  The injection-character pattern
`[<>"\x27;\x5c]` is checked even though the regex classes already exclude
those characters. -/
def validateEmail (email : String) : Bool :=
  if email.length == 0 || email.length > 255 then false
  else if !(emailRegexMatch email) then false
  else if email.toList.any isDangerousChar then false
  else if hasDoubleDot email.toList then false
  else if email.toList.take 1 == ['.'] || email.toList.getLast? == some '.' then
    false
  else true

/-! ### generate_api_key (gpu_optimizer_system.py lines 990-1006) -/

/-- The RFC 4648 URL-safe base64 alphabet used by `secrets.token_urlsafe`. -/
def b64Alphabet : List Char :=
  "ABCDEFGHIJKLMNOPQRSTUVWXYZabcdefghijklmnopqrstuvwxyz0123456789-_".toList

/-- Digit-to-character table of the URL-safe base64 alphabet. -/
def b64Char (n : Nat) : Char := b64Alphabet.getD n 'A'

/-- URL-safe base64 encoding of a byte list, padding stripped
(as `base64.urlsafe_b64encode(...).rstrip(b'=')` inside `token_urlsafe`). -/
def b64urlEncode : List Nat → List Char
  | a :: b :: c :: rest =>
    b64Char (a / 4) :: b64Char ((a % 4) * 16 + b / 16) ::
      b64Char ((b % 16) * 4 + c / 64) :: b64Char (c % 64) :: b64urlEncode rest
  | [a, b] => [b64Char (a / 4), b64Char ((a % 4) * 16 + b / 16), b64Char ((b % 16) * 4)]
  | [a] => [b64Char (a / 4), b64Char ((a % 4) * 16)]
  | [] => []

/-- Model of `secrets.token_urlsafe` applied to the given random bytes. -/
def tokenUrlsafe (bytes : List Nat) : String :=
  (b64urlEncode bytes).asString

/-- Model of `RevenueManager.generate_api_key` applied to the 18 random bytes drawn by
`secrets.token_urlsafe(18)`: `'gopt_' + token_urlsafe(18)[:23]`.  (The
database collision re-check re-draws fresh bytes; callers below pass the
bytes of the final, collision-free draw.) -/
def generateApiKey (bytes : List Nat) : String :=
  "gopt_" ++ (tokenUrlsafe bytes).take 23

/-! ### Data model (the `customers`, `gpu_usage_logs`, `payment_transactions`
and `revenue_events` tables, and the `Customer` dataclass) -/

/-- The `Customer` dataclass / a row of the `customers` table
(`row_to_customer` maps one onto the other field for field). -/
structure Customer where
  email : String
  tier : String
  apiKey : String
  createdAt : ℚ
  lastPayment : Option ℚ
  gpuCount : Nat
  monthlySavings : ℚ
  deriving DecidableEq, Repr

/-- A row of the `gpu_usage_logs` table (insertion timestamp omitted). -/
structure UsageLog where
  email : String
  gpuIndex : Nat
  gpuName : String
  gpuUtil : ℚ
  memUsed : ℚ
  memTotal : ℚ
  costPerHour : ℚ
  potentialSavings : ℚ
  deriving DecidableEq, Repr

/-- A row of the `payment_transactions` table (`payment_id` is UNIQUE). -/
structure PaymentTx where
  email : String
  paymentId : String
  gateway : String
  amount : ℚ
  currency : String
  status : String
  metadata : String
  updatedAt : ℚ
  deriving DecidableEq, Repr

/-- A row of the `revenue_events` table (the JSON metadata blob is omitted). -/
structure RevenueEvent where
  email : String
  eventType : String
  amount : ℚ
  deriving DecidableEq, Repr

/-- One element of the `gpu_data` list handed to `track_gpu_usage`
(`cost_per_hour` is optional: the code reads it with `.get(_, 3.0)`). -/
structure GpuSample where
  gpuIndex : Nat
  gpuName : String
  gpuUtil : ℚ
  memUsed : ℚ
  memTotal : ℚ
  costPerHour : Option ℚ
  deriving DecidableEq, Repr

/-- The success payload `track_gpu_usage` returns. -/
structure TrackOk where
  gpusMonitored : Nat
  potentialHourlySavings : ℚ
  monthlyProjection : ℚ
  tier : String
  deriving DecidableEq, Repr

/-- The whole mutable state of one `RevenueManager` instance: the SQLite
tables, the `PerformanceCache` (key, value, expiry time) merged with its TTL
map (every `set` writes both in lockstep), the two `functools.lru_cache` memo
tables sitting on `get_customer` and `get_customer_by_api_key` (maxsize 1000;
eviction is not modelled, no scenario below approaches 1000 entries), and the
`rate_limits` dict. -/
structure RMState where
  customers : List Customer
  usageLogs : List UsageLog
  payments : List PaymentTx
  events : List RevenueEvent
  perfCache : List (String × (Customer × ℚ))
  lruEmail : List (String × Option Customer)
  lruApi : List (String × Option Customer)
  rateLimits : List (String × List ℚ)
  deriving DecidableEq, Repr

/-- A fresh `RevenueManager`: empty tables and caches. -/
def RMState.empty : RMState :=
  ⟨[], [], [], [], [], [], [], []⟩

/-! ### PerformanceCache (gpu_optimizer_system.py lines 96-134) -/

/-- Model of `PerformanceCache.get`: a hit past its expiry is evicted and treated as a
miss; returns the value (if any) and the possibly-shrunk cache. -/
def cacheGet (now : ℚ) (key : String) (c : List (String × (Customer × ℚ))) :
    Option Customer × List (String × (Customer × ℚ)) :=
  match alookup c key with
  | none => (none, c)
  | some (v, expiry) => if now > expiry then (none, adel c key) else (some v, c)

/-- Model of `PerformanceCache.set` with an explicit TTL: records the value and its
expiry time `now + ttl`. -/
def cacheSet (now : ℚ) (key : String) (v : Customer) (ttl : ℚ)
    (c : List (String × (Customer × ℚ))) : List (String × (Customer × ℚ)) :=
  aset c key (v, now + ttl)

/-! ### Customer lookups (gpu_optimizer_system.py lines 1008-1071) -/

/-- Model of `RevenueManager.get_customer` (also `get_customer_by_email`, its alias):
the outer `@lru_cache(maxsize=1000)` memo is consulted first and memoizes the
body's result — including `None` misses; the body checks the
`PerformanceCache` under key `customer_email_<email>`, falls back to the
`customers` table, and caches a found row for 600 seconds. -/
def getCustomer (now : ℚ) (email : String) (st : RMState) :
    Option Customer × RMState :=
  match alookup st.lruEmail email with
  | some memo => (memo, st)
  | none =>
    let ck := "customer_email_" ++ email
    match cacheGet now ck st.perfCache with
    | (some c, pc) =>
      (some c, { st with perfCache := pc, lruEmail := aset st.lruEmail email (some c) })
    | (none, pc) =>
      match st.customers.find? (fun r => r.email == email) with
      | some c =>
        (some c, { st with perfCache := cacheSet now ck c 600 pc,
                           lruEmail := aset st.lruEmail email (some c) })
      | none =>
        (none, { st with perfCache := pc, lruEmail := aset st.lruEmail email none })

/-- Model of `RevenueManager.get_customer_by_api_key`: same shape as `get_customer`
(with its own `@lru_cache` memo and the cache key `customer_api_<key>`), but a
key failing `SecurityUtils.validate_api_key` short-circuits to `None` without
touching storage. -/
def getCustomerByApiKey (now : ℚ) (apiKey : String) (st : RMState) :
    Option Customer × RMState :=
  match alookup st.lruApi apiKey with
  | some memo => (memo, st)
  | none =>
    if !(validApiKey apiKey) then
      (none, { st with lruApi := aset st.lruApi apiKey none })
    else
      let ck := "customer_api_" ++ apiKey
      match cacheGet now ck st.perfCache with
      | (some c, pc) =>
        (some c, { st with perfCache := pc, lruApi := aset st.lruApi apiKey (some c) })
      | (none, pc) =>
        match st.customers.find? (fun r => r.apiKey == apiKey) with
        | some c =>
          (some c, { st with perfCache := cacheSet now ck c 600 pc,
                             lruApi := aset st.lruApi apiKey (some c) })
        | none =>
          (none, { st with perfCache := pc, lruApi := aset st.lruApi apiKey none })

/-! ### RevenueManager.create_customer (gpu_optimizer_system.py lines 483-540) -/

/-- Model of `RevenueManager.create_customer`: sanitize the email, reject it if
`validate_email` fails, consult `get_customer_by_email` for a duplicate, then
INSERT the new row (tier `free`) together with a `signup` revenue event.  A
UNIQUE violation on the INSERT (`sqlite3.IntegrityError`) is caught and the
already-stored row is returned instead of an error; the transaction is then
never committed, so neither insert persists.  `freshKey` is the key produced
by `generate_api_key` for this call.  (The unreachable sub-case of an
IntegrityError with no matching email row — only possible on an API-key
collision, which `generate_api_key` re-draws away — is mapped to an error.) -/
def createCustomer (now : ℚ) (rawEmail : String) (freshKey : String)
    (st : RMState) : Except String Customer × RMState :=
  let email := sanitizeInput rawEmail
  if !(validateEmail email) then
    (Except.error "Invalid email format", st)
  else
    match getCustomer now email st with
    | (some _, st1) => (Except.error "Customer already exists", st1)
    | (none, st1) =>
      if st1.customers.any (fun r => r.email == email || r.apiKey == freshKey) then
        match st1.customers.find? (fun r => r.email == email) with
        | some row => (Except.ok row, st1)
        | none => (Except.error "IntegrityError", st1)
      else
        let newCust : Customer :=
          { email := email, tier := "free", apiKey := freshKey, createdAt := now,
            lastPayment := none, gpuCount := 0, monthlySavings := 0 }
        (Except.ok newCust,
         { st1 with customers := st1.customers ++ [newCust],
                    events := st1.events ++ [⟨email, "signup", 0⟩] })

/-! ### RevenueManager.complete_upgrade (gpu_optimizer_system.py lines 807-832) -/

/-- The `self.pricing` tier table (price field). -/
def tierPrice : String → Option ℚ
  | "free" => some 0
  | "professional" => some 49
  | "enterprise" => some 199
  | _ => none

/-- Model of `RevenueManager.complete_upgrade`: read the customer via `get_customer`,
UPDATE the row's tier and `last_payment`, and INSERT an `upgrade` revenue
event, all committed together.  A missing customer (the event INSERT
dereferences `customer.tier`) or an unknown tier (a `KeyError` in
`self.pricing[new_tier]`) aborts before the commit, so the UPDATE does not
persist.  Note: no cache entry and no lru-memo entry is touched. -/
def completeUpgrade (now : ℚ) (email newTier paymentId : String)
    (st : RMState) : Except String Unit × RMState :=
  let _ := paymentId
  match getCustomer now email st with
  | (none, st1) => (Except.error "AttributeError", st1)
  | (some _, st1) =>
    match tierPrice newTier with
    | none => (Except.error "KeyError", st1)
    | some price =>
      (Except.ok (),
       { st1 with
           customers := st1.customers.map (fun r =>
             if r.email == email then
               { r with tier := newTier, lastPayment := some now }
             else r),
           events := st1.events ++ [⟨email, "upgrade", price⟩] })

/-! ### Usage ingestion (gpu_optimizer_system.py lines 834-910) -/

/-- The free tier's `gpu_limit` from `self.pricing`. -/
def freeGpuLimit : Nat := 2

/-- The loop body of `_batch_process_gpu_data`: accumulate the batch's total
potential savings and the prepared `gpu_usage_logs` rows.  A GPU with
utilization below 15 contributes `cost_per_hour * 0.5`; others contribute
zero (and the zero is still stored in the row). -/
def batchStep (email : String) (acc : ℚ × List UsageLog) (gpu : GpuSample) :
    ℚ × List UsageLog :=
  let cost := gpu.costPerHour.getD 3
  let savings : ℚ := if gpu.gpuUtil < 15 then cost * (1 / 2) else 0
  (acc.1 + savings,
   acc.2 ++ [⟨email, gpu.gpuIndex, gpu.gpuName, gpu.gpuUtil, gpu.memUsed,
              gpu.memTotal, cost, savings⟩])

/-- Model of `RevenueManager._batch_process_gpu_data`: insert all usage rows, set the
customer's `gpu_count` to the batch size and add `total * 24 * 30` to
`monthly_savings` in the same transaction, then delete both
`PerformanceCache` entries for the customer.  (The `lru_cache` memos are not
touched by the source.) -/
def batchProcessGpuData (cust : Customer) (gpuData : List GpuSample)
    (st : RMState) : Except String TrackOk × RMState :=
  let acc := gpuData.foldl (batchStep cust.email) (0, [])
  (Except.ok
     { gpusMonitored := gpuData.length, potentialHourlySavings := acc.1,
       monthlyProjection := acc.1 * 24 * 30, tier := cust.tier },
   { st with
       customers := st.customers.map (fun r =>
         if r.email == cust.email then
           { r with gpuCount := gpuData.length,
                    monthlySavings := r.monthlySavings + acc.1 * 24 * 30 }
         else r),
       usageLogs := st.usageLogs ++ acc.2,
       perfCache := adel (adel st.perfCache ("customer_email_" ++ cust.email))
                      ("customer_api_" ++ cust.apiKey) })

/-- Model of `RevenueManager.track_gpu_usage`: resolve the caller via
`get_customer_by_api_key`, reject a free-tier batch larger than the free
GPU limit before touching storage, otherwise hand off to the batch
processor. -/
def trackGpuUsage (now : ℚ) (apiKey : String) (gpuData : List GpuSample)
    (st : RMState) : Except String TrackOk × RMState :=
  match getCustomerByApiKey now apiKey st with
  | (none, st1) => (Except.error "Invalid API key", st1)
  | (some cust, st1) =>
    if cust.tier == "free" && decide (gpuData.length > freeGpuLimit) then
      (Except.error "Free tier limited to 2 GPUs. Upgrade to Professional.", st1)
    else
      batchProcessGpuData cust gpuData st1

/-! ### Payment transaction rows (gpu_optimizer_system.py lines 694-728) -/

/-- Model of `RevenueManager.store_payment_transaction`: an
`INSERT OR REPLACE INTO payment_transactions` keyed by the UNIQUE
`payment_id` column — any existing row with the same `payment_id` is
replaced, whatever its status. -/
def storePaymentTransaction (now : ℚ) (email paymentId gateway : String)
    (amount : ℚ) (currency status metadata : String) (st : RMState) : RMState :=
  { st with payments :=
      st.payments.filter (fun t => !(t.paymentId == paymentId)) ++
        [⟨email, paymentId, gateway, amount, currency, status, metadata, now⟩] }

/-- Model of `RevenueManager.update_payment_status`: an unconditional
`UPDATE payment_transactions SET status = ? WHERE payment_id = ?` (plus
metadata when given); the current status is never consulted. -/
def updatePaymentStatus (now : ℚ) (paymentId status : String)
    (metadata : Option String) (st : RMState) : RMState :=
  { st with payments :=
      st.payments.map (fun t =>
        if t.paymentId == paymentId then
          match metadata with
          | some m => { t with status := status, metadata := m, updatedAt := now }
          | none => { t with status := status, updatedAt := now }
        else t) }

/-! ### Rate limiting (gpu_optimizer_system.py lines 352-370) -/

/-- Model of `RevenueManager.check_rate_limit`: prune the identifier's stored
timestamps to those with `now - timestamp < window`, deny (recording
nothing) when the pruned count has reached `limit`, otherwise append `now`
and allow. -/
def checkRateLimit (now : ℚ) (identifier : String) (limit : Nat) (window : ℚ)
    (rl : List (String × List ℚ)) : Bool × List (String × List ℚ) :=
  let entry := (alookup rl identifier).getD []
  let pruned := entry.filter (fun ts => decide (now - ts < window))
  if pruned.length ≥ limit then
    (false, aset rl identifier pruned)
  else
    (true, aset rl identifier (pruned ++ [now]))

/-- Run `check_rate_limit` on each timestamp of `calls` in order with a fixed
identifier, limit and window, collecting the returned booleans. -/
def rlRun (identifier : String) (limit : Nat) (window : ℚ)
    (calls : List ℚ) (rl : List (String × List ℚ)) : List Bool :=
  match calls with
  | [] => []
  | t :: rest =>
    let out := checkRateLimit t identifier limit window rl
    out.1 :: rlRun identifier limit window rest out.2

/-! ### GlobalPaymentSystem (global_payment_system.py) -/

/-- The normalized `PaymentResult` dataclass. -/
structure PaymentResult where
  success : Bool
  transactionId : Option String
  amount : ℚ
  currency : String
  gateway : String
  status : String
  message : String
  paymentUrl : Option String := none
  deriving DecidableEq, Repr

/-- The credential environment read into `self.primary_gateways` at
construction (an unset environment variable is the empty string: Python
`bool(None)` and `bool('')` are both falsy in `_is_gateway_configured`). -/
structure GatewayConfig where
  nowpaymentsApiKey : String
  flutterwaveSecretKey : String
  paddleVendorId : String
  paddleVendorAuthCode : String
  deriving DecidableEq, Repr

/-- No credential set at all. -/
def GatewayConfig.empty : GatewayConfig := ⟨"", "", "", ""⟩

/-- Model of `GlobalPaymentSystem._is_gateway_configured`: each of the three real
gateways counts as configured only if its mandatory credential fields are
non-empty; any other id — including `demo`, which has no entry in
`primary_gateways` — returns `False`. -/
def isGatewayConfigured (cfg : GatewayConfig) (gatewayId : String) : Bool :=
  if gatewayId == "nowpayments" then !(cfg.nowpaymentsApiKey == "")
  else if gatewayId == "flutterwave" then !(cfg.flutterwaveSecretKey == "")
  else if gatewayId == "paddle" then
    !(cfg.paddleVendorId == "") && !(cfg.paddleVendorAuthCode == "")
  else false

/-- The African country list of `_select_best_gateway`. -/
def africanCountries : List String :=
  ["NG", "GH", "KE", "UG", "ZA", "TZ", "RW", "ZM"]

/-- The developed-country list of `_select_best_gateway`. -/
def developedCountries : List String :=
  ["US", "GB", "CA", "AU", "FR", "DE", "IT", "ES", "NL", "BE", "CH", "SE",
   "DK", "NO", "FI", "BR", "MX"]

/-- Model of `GlobalPaymentSystem._select_best_gateway`: regional preference first
(each regional branch falls through when its gateway is unconfigured), then
the global priority chain flutterwave → nowpayments → paddle, and finally the
`demo` fallback when nothing is configured. -/
def selectBestGateway (cfg : GatewayConfig) (countryCode : Option String) :
    String :=
  let regional : Option String :=
    match countryCode with
    | some c =>
      if c ∈ africanCountries then
        (if isGatewayConfigured cfg "flutterwave" then some "flutterwave" else none)
      else if c ∈ developedCountries then
        (if isGatewayConfigured cfg "flutterwave" then some "flutterwave"
         else if isGatewayConfigured cfg "paddle" then some "paddle" else none)
      else none
    | none => none
  match regional with
  | some g => g
  | none =>
    if isGatewayConfigured cfg "flutterwave" then "flutterwave"
    else if isGatewayConfigured cfg "nowpayments" then "nowpayments"
    else if isGatewayConfigured cfg "paddle" then "paddle"
    else "demo"

/-- Model of `GlobalPaymentSystem._create_demo_payment` applied to the hex string
drawn from `uuid.uuid4()`: always a `success=True`, `status='pending'`
result, contacting no network service. -/
def createDemoPayment (uuidHex : String) (amount : ℚ)
    (currency plan customerEmail : String) : PaymentResult :=
  let _ := plan
  let _ := customerEmail
  let txid := "demo_" ++ uuidHex.take 12
  { success := true, transactionId := some txid, amount := amount,
    currency := currency, gateway := "demo", status := "pending",
    message := "Demo payment created - this is for testing only",
    paymentUrl := some ("https://demo-payment.gpuoptimizer.com/pay/" ++ txid) }

/-- A failed `PaymentResult` as built by `create_payment`'s exception
handler. -/
def failedResult (amount : ℚ) (currency gateway message : String) :
    PaymentResult :=
  { success := false, transactionId := none, amount := amount,
    currency := currency, gateway := gateway, status := "failed",
    message := message }

/-- Model of `GlobalPaymentSystem.create_payment`: select a gateway when none is
given, then `raise ValueError` — caught by the surrounding handler and turned
into a failed result — when `_is_gateway_configured` rejects the choice;
otherwise dispatch to the per-gateway adapter.  The network-facing adapters
are abstracted as `net` (each catches its own errors and returns a
normalized result, as in the source); `uuidHex` feeds the demo adapter. -/
def createPayment (cfg : GatewayConfig) (net : String → PaymentResult)
    (uuidHex : String) (amount : ℚ) (currency plan customerEmail : String)
    (gateway countryCode : Option String) : PaymentResult :=
  let gw := match gateway with
            | some g => g
            | none => selectBestGateway cfg countryCode
  if !(isGatewayConfigured cfg gw) then
    failedResult amount currency gw ("Gateway " ++ gw ++ " is not configured")
  else if gw == "nowpayments" then net "nowpayments"
  else if gw == "paypal" then net "paypal"
  else if gw == "paddle" then net "paddle"
  else if gw == "razorpay" then net "razorpay"
  else if gw == "flutterwave" then net "flutterwave"
  else if gw == "demo" then createDemoPayment uuidHex amount currency plan customerEmail
  else failedResult amount currency gw ("Unsupported gateway: " ++ gw)

/-! ### Concrete scenarios used by the claims -/

/-- A well-formed API key (23 alphanumeric suffix characters). -/
def c1Key : String := "gopt_AbCdEfGhJkLmNpQrStUvWxY"

/-- A free-tier customer holding `c1Key`. -/
def c1Bob : Customer := ⟨"bob@x.com", "free", c1Key, 0, none, 0, 0⟩

/-- A manager state whose only customer is `c1Bob`, caches cold. -/
def c1St0 : RMState := { RMState.empty with customers := [c1Bob] }

/-- State after a reader resolved `c1Bob` by API key at time 0 (both the
`PerformanceCache` entry and the lru memo are now warm). -/
def c1St1 : RMState := (getCustomerByApiKey 0 c1Key c1St0).2

/-- State after the payment-driven tier mutation at time 1. -/
def c1St2 : RMState :=
  (completeUpgrade 1 "bob@x.com" "professional" "pay1" c1St1).2

/-- A well-formed API key for the C3 witness transaction owner. -/
def c3Tx : PaymentTx :=
  ⟨"bob@x.com", "p1", "flutterwave", 49, "USD", "completed", "m", 0⟩

/-- A state holding one completed payment transaction. -/
def c3St : RMState := { RMState.empty with payments := [c3Tx] }

/-- The fresh API key generated during the C4 signup. -/
def c4Key : String := "gopt_AbCdEfGhJkLmNpQrStUvWx4"

/-- The customer record the C4 signup creates. -/
def c4Cust : Customer := ⟨"dev@example.com", "free", c4Key, 0, none, 0, 0⟩

/-- Model of `create_customer` on a fresh manager in the C4 scenario. -/
def c4Out : Except String Customer × RMState :=
  createCustomer 0 "dev@example.com" c4Key RMState.empty

/-- The fresh API key of the first C5 signup. -/
def c5KeyA : String := "gopt_AbCdEfGhJkLmNpQrStUvWxA"

/-- The fresh API key drawn for the duplicate second C5 signup. -/
def c5KeyB : String := "gopt_AbCdEfGhJkLmNpQrStUvWxB"

/-- The customer record the first C5 signup creates. -/
def c5CustA : Customer := ⟨"dev@example.com", "free", c5KeyA, 0, none, 0, 0⟩

/-- State after the first C5 signup. -/
def c5St1 : RMState :=
  (createCustomer 0 "dev@example.com" c5KeyA RMState.empty).2

/-- The duplicate second C5 signup. -/
def c5Out : Except String Customer × RMState :=
  createCustomer 1 "dev@example.com" c5KeyB c5St1

/-- A well-formed API key for the C6 scenario. -/
def c6Key : String := "gopt_AbCdEfGhJkLmNpQrStUvWx6"

/-- A free-tier customer holding `c6Key`. -/
def c6Cust : Customer := ⟨"kim@x.com", "free", c6Key, 0, none, 0, 0⟩

/-- A manager state whose only customer is `c6Cust`. -/
def c6St : RMState := { RMState.empty with customers := [c6Cust] }

/-- A batch of three GPU samples — above the free tier's ceiling of 2. -/
def c6Data : List GpuSample :=
  [⟨0, "A100", 5, 1000, 16000, some 3⟩, ⟨1, "A100", 5, 1000, 16000, some 3⟩,
   ⟨2, "A100", 5, 1000, 16000, some 3⟩]

/-- A well-formed API key for the C8 scenario. -/
def c8Key : String := "gopt_AbCdEfGhJkLmNpQrStUvWx8"

/-- A free-tier customer holding `c8Key`. -/
def c8Cust : Customer := ⟨"dev@example.com", "free", c8Key, 0, none, 0, 0⟩

/-- A manager state whose only customer is `c8Cust`. -/
def c8St : RMState := { RMState.empty with customers := [c8Cust] }

/-- The spec's end-to-end example batch: one GPU at utilization 5 with
cost-per-hour 3.0. -/
def c8Data : List GpuSample := [⟨0, "V100", 5, 1000, 16000, some 3⟩]

/-- The fresh API key generated during the C9 signups. -/
def c9Key : String := "gopt_AbCdEfGhJkLmNpQrStUvWx9"

/-- The customer record created from the silently rewritten C9 email. -/
def c9Cust : Customer := ⟨"dev@example.com", "free", c9Key, 0, none, 0, 0⟩

/-- The `track_gpu_usage` success payload of the spec's end-to-end example:
one GPU monitored, hourly savings 1.5, monthly projection 1080. -/
def c8Res : TrackOk := ⟨1, 3 / 2, 1080, "free"⟩

/-- The 18 random bytes of the C10 draw; the first byte 0xF8 makes the first
base64url character the index-62 character `-`. -/
def c10Bytes : List Nat := 248 :: List.replicate 17 0

/-- The API key `generate_api_key` produces from `c10Bytes`. -/
def c10Key : String := generateApiKey c10Bytes

/-- A customer holding the hyphen-bearing generated key. -/
def c10Cust : Customer := ⟨"eve@x.com", "free", c10Key, 0, none, 0, 0⟩

/-- A manager state whose only customer is `c10Cust`. -/
def c10St : RMState := { RMState.empty with customers := [c10Cust] }

/-! ### Helper lemmas -/

/-- Model of `aset` followed by `alookup` at the same key finds the new value. -/
theorem alookup_aset_self {α : Type} (l : List (String × α)) (k : String)
    (v : α) : alookup (aset l k v) k = some v := by
  induction l with
  | nil => simp [aset, alookup]
  | cons p t ih =>
    by_cases h : p.1 = k
    · simp [aset, h, alookup]
    · simp [aset, alookup, h, ih]

/-- Model of `get_customer_by_api_key` is a pure read of the durable tables: it only
touches the caches and memos, never `customers` or `gpu_usage_logs`. -/
theorem getCustomerByApiKey_preserves_tables (now : ℚ) (apiKey : String)
    (st : RMState) :
    (getCustomerByApiKey now apiKey st).2.customers = st.customers ∧
    (getCustomerByApiKey now apiKey st).2.usageLogs = st.usageLogs := by
  unfold getCustomerByApiKey
  cases h : alookup st.lruApi apiKey with
  | some m => simp [h]
  | none =>
    cases hv : validApiKey apiKey with
    | false => simp [h, hv]
    | true =>
      rcases hc : cacheGet now ("customer_api_" ++ apiKey) st.perfCache with ⟨o, pc⟩
      cases o with
      | some c => simp [h, hv, hc]
      | none =>
        cases hf : st.customers.find? (fun r => r.apiKey == apiKey) with
        | some c => simp [h, hv, hc, hf]
        | none => simp [h, hv, hc, hf]

/-- The accumulated total of `_batch_process_gpu_data`'s loop equals the sum
of the per-record idle contributions. -/
theorem batchFold_total (email : String) (l : List GpuSample) (t : ℚ)
    (b : List UsageLog) :
    (l.foldl (batchStep email) (t, b)).1 =
      t + (l.map (fun g =>
        if g.gpuUtil < 15 then (g.costPerHour.getD 3) * (1 / 2) else 0)).sum := by
  induction l generalizing t b with
  | nil => simp
  | cons g gs ih =>
    simp only [List.foldl_cons, List.map_cons, List.sum_cons, batchStep]
    rw [ih]
    ring

/-- With no credential configured, `_select_best_gateway` returns `demo`
for every country code: every regional and global branch is gated on
`_is_gateway_configured`, which fails for all three gateways. -/
theorem selectBestGateway_empty_demo (cc : Option String) :
    selectBestGateway GatewayConfig.empty cc = "demo" := by
  cases cc with
  | none => rfl
  | some c => simp [selectBestGateway, isGatewayConfigured, GatewayConfig.empty]

/-! ### Claim theorems -/

deriving instance DecidableEq for Except

/-- Claim C1 (code_bug evidence): after the payment-driven tier mutation
`complete_upgrade` returns, the API-key-keyed cache entry for the customer
has NOT been invalidated, and a `get_customer_by_api_key` call issued
afterwards still yields the pre-mutation tier `free` even though the stored
row already says `professional`.  The claimed invariant (both cache entries
invalidated before the mutating call returns) fails on the code:
`complete_upgrade` deletes no cache entry and no lru memo entry. -/
theorem claim_C1_stale_tier_after_upgrade :
    (getCustomerByApiKey 0 c1Key c1St0).1 = some c1Bob ∧
    (completeUpgrade 1 "bob@x.com" "professional" "pay1" c1St1).1 = Except.ok () ∧
    c1St2.customers = [{ c1Bob with tier := "professional", lastPayment := some 1 }] ∧
    (alookup c1St2.perfCache ("customer_api_" ++ c1Key)).isSome = true ∧
    (getCustomerByApiKey 2 c1Key c1St2).1 = some c1Bob ∧
    c1Bob.tier = "free" := by
  decide

/-- Claim C3 counterexample: on a transaction in the `completed` state,
`update_payment_status` applied with `pending` succeeds and rewrites the row
to `pending` — a transition out of `completed`, with no
`InvalidStateTransition` failure. -/
theorem counterexample_C3_completed_to_pending :
    (updatePaymentStatus 1 "p1" "pending" none c3St).payments =
      [{ c3Tx with status := "pending", updatedAt := 1 }] := by
  decide

/-- Claim C3 (amended): status writes are unconditional.  Every
`payment_transactions` row matching the payment id is overwritten with the
given status by `update_payment_status` regardless of its current status,
and `store_payment_transaction` (INSERT OR REPLACE) leaves exactly rows with
the given status under that payment id; no transition is ever rejected. -/
theorem claim_C3_amended_unconditional_status_writes :
    (∀ (now : ℚ) (pid status : String) (md : Option String) (st : RMState)
       (r : PaymentTx), r ∈ st.payments → r.paymentId = pid →
       ∃ r', r' ∈ (updatePaymentStatus now pid status md st).payments ∧
         r'.paymentId = pid ∧ r'.status = status) ∧
    (∀ (now : ℚ) (email pid gw : String) (amount : ℚ)
       (cur status md : String) (st : RMState),
       (∃ r', r' ∈ (storePaymentTransaction now email pid gw amount cur status md st).payments ∧
          r'.paymentId = pid ∧ r'.status = status) ∧
       (∀ r ∈ (storePaymentTransaction now email pid gw amount cur status md st).payments,
          r.paymentId = pid → r.status = status)) := by
  constructor
  · intro now pid status md st r hr hpid
    refine ⟨_, List.mem_map_of_mem _ hr, ?_⟩
    simp only [hpid, beq_self_eq_true, if_true]
    cases md <;> simp
  · intro now email pid gw amount cur status md st
    constructor
    · exact ⟨⟨email, pid, gw, amount, cur, status, md, now⟩,
        List.mem_append_right _ (List.mem_singleton.mpr rfl), rfl, rfl⟩
    · intro r hr hpid
      rcases List.mem_append.mp hr with hf | hnew
      · have := (List.mem_filter.mp hf).2
        simp [hpid] at this
      · rw [List.mem_singleton.mp hnew]

/-- Claim C4 (code_bug evidence): on a fresh manager, `create_customer`
succeeds and returns a customer whose key has the claimed format (prefix
`gopt_`, 23-character suffix) and whose row is stored, yet an immediately
following `get_customer_by_email` returns `none`: the `@lru_cache` on
`get_customer` memoized the pre-creation miss performed by the duplicate
check inside `create_customer`. -/
theorem claim_C4_lookup_after_create_returns_none :
    c4Out.1 = Except.ok c4Cust ∧
    c4Cust.apiKey = c4Key ∧
    c4Key.toList.take 5 = "gopt_".toList ∧
    (c4Key.drop 5).length = 23 ∧
    c4Out.2.customers = [c4Cust] ∧
    (getCustomer 1 "dev@example.com" c4Out.2).1 = none := by
  decide

/-- Claim C5 (code_bug evidence): a second `create_customer` with an email
that already exists does not fail — the stale lru memo defeats the duplicate
check, the UNIQUE violation is swallowed, and the call returns the first
customer's record unchanged (same api key, tier, gpu count and savings),
leaving the state exactly as it was. -/
theorem claim_C5_duplicate_create_returns_existing_row :
    (createCustomer 0 "dev@example.com" c5KeyA RMState.empty).1 =
      Except.ok c5CustA ∧
    c5Out.1 = Except.ok c5CustA ∧
    c5Out.2 = c5St1 ∧
    c5St1.customers = [c5CustA] := by
  decide

/-- Claim C10: `generate_api_key` can return a key that
`validate_api_key` rejects.  The 18-byte draw `c10Bytes` is a legal
`token_urlsafe` input whose key contains `-` (a URL-safe base64 character
outside `[a-zA-Z0-9]`), so validation fails and `get_customer_by_api_key`
short-circuits to `none` even though a customer holding exactly that key is
stored. -/
theorem claim_C10_generated_key_rejected_by_validator :
    c10Bytes.length = 18 ∧
    c10Bytes.all (fun b => b < 256) = true ∧
    c10Key = "gopt_-AAAAAAAAAAAAAAAAAAAAAA" ∧
    c10Key.toList.take 5 = "gopt_".toList ∧
    c10Key.length = 28 ∧
    validApiKey c10Key = false ∧
    c10Cust ∈ c10St.customers ∧
    c10Cust.apiKey = c10Key ∧
    (getCustomerByApiKey 0 c10Key c10St).1 = none := by
  decide

/-- Claim C2 (code_bug evidence): with no gateway credentials set, gateway
selection returns the demo gateway id for every country code, and the demo
adapter itself produces a `success=True`, `status='pending'` result without
any network call — but `create_payment` with gateway unspecified gates the
selected gateway through `_is_gateway_configured`, which has no
`primary_gateways` entry for `demo` and returns `False`, so the call is
converted into a `success=False`, `status='failed'` result instead of the
claimed non-failing pending one. -/
theorem claim_C2_demo_fallback_fails_in_create_payment :
    (∀ cc : Option String, selectBestGateway GatewayConfig.empty cc = "demo") ∧
    isGatewayConfigured GatewayConfig.empty "demo" = false ∧
    (∀ (net : String → PaymentResult) (uuidHex : String) (amount : ℚ)
       (currency plan email : String) (cc : Option String),
       createPayment GatewayConfig.empty net uuidHex amount currency plan
           email none cc =
         failedResult amount currency "demo" "Gateway demo is not configured") ∧
    (createDemoPayment "0123456789abcdef" 49 "USD" "professional"
        "dev@example.com").success = true ∧
    (createDemoPayment "0123456789abcdef" 49 "USD" "professional"
        "dev@example.com").status = "pending" := by
  refine ⟨selectBestGateway_empty_demo, rfl, ?_, rfl, rfl⟩
  intro net uuidHex amount currency plan email cc
  have h := selectBestGateway_empty_demo cc
  simp only [createPayment, h]
  rfl

/-- Claim C6: a free-tier customer submitting a batch larger than the free
tier's GPU ceiling receives the validation error before any write: no usage
record is persisted and the `customers` table (gpu count, savings) is left
unchanged — an all-or-nothing rejection. -/
theorem claim_C6_free_tier_oversized_batch_rejected
    (now : ℚ) (apiKey : String) (gpuData : List GpuSample) (st : RMState)
    (c : Customer)
    (hres : (getCustomerByApiKey now apiKey st).1 = some c)
    (htier : c.tier = "free")
    (hlen : freeGpuLimit < gpuData.length) :
    (trackGpuUsage now apiKey gpuData st).1 =
      Except.error "Free tier limited to 2 GPUs. Upgrade to Professional." ∧
    (trackGpuUsage now apiKey gpuData st).2.usageLogs = st.usageLogs ∧
    (trackGpuUsage now apiKey gpuData st).2.customers = st.customers := by
  have hpres := getCustomerByApiKey_preserves_tables now apiKey st
  rcases hq : getCustomerByApiKey now apiKey st with ⟨o, st1⟩
  rw [hq] at hres hpres
  obtain rfl : o = some c := hres
  have hcond : (c.tier == "free" && decide (gpuData.length > freeGpuLimit)) = true := by
    rw [htier]
    simp [hlen]
  unfold trackGpuUsage
  rw [hq]
  simp only [hcond, if_true]
  exact ⟨trivial, hpres.2, hpres.1⟩

/-- Claim C6 witness: a concrete free-tier customer and a 3-GPU batch. -/
theorem claim_C6_witness :
    ((getCustomerByApiKey 0 c6Key c6St).1 = some c6Cust ∧
     c6Cust.tier = "free" ∧ freeGpuLimit < c6Data.length) ∧
    ((trackGpuUsage 0 c6Key c6Data c6St).1 =
       Except.error "Free tier limited to 2 GPUs. Upgrade to Professional." ∧
     (trackGpuUsage 0 c6Key c6Data c6St).2.usageLogs = c6St.usageLogs ∧
     (trackGpuUsage 0 c6Key c6Data c6St).2.customers = c6St.customers) :=
  ⟨⟨by decide, rfl, by decide⟩,
   claim_C6_free_tier_oversized_batch_rejected 0 c6Key c6Data c6St c6Cust
     (by decide) rfl (by decide)⟩

/-- Claim C7: `check_rate_limit` first prunes the identifier's stored
timestamps to the window, denies — recording nothing — exactly when the
pruned count has reached the limit, and otherwise appends the current
timestamp; with limit 5 and a 60-second window, five calls are allowed, the
sixth within the window is denied, and a call once the oldest timestamp has
aged past the window is allowed again. -/
theorem claim_C7_rate_limit_prune_then_decide :
    (∀ (now : ℚ) (identifier : String) (limit : Nat) (window : ℚ)
       (rl : List (String × List ℚ)),
       ((checkRateLimit now identifier limit window rl).1 = false ↔
         limit ≤ (((alookup rl identifier).getD []).filter
           (fun ts => decide (now - ts < window))).length) ∧
       alookup (checkRateLimit now identifier limit window rl).2 identifier =
         some ((((alookup rl identifier).getD []).filter
             (fun ts => decide (now - ts < window))) ++
           (if (checkRateLimit now identifier limit window rl).1 then [now]
            else []))) ∧
    rlRun "agent" 5 60 [0, 10, 20, 30, 40, 50, 60] [] =
      [true, true, true, true, true, false, true] := by
  constructor
  · intro now identifier limit window rl
    unfold checkRateLimit
    by_cases h : (((alookup rl identifier).getD []).filter
        (fun ts => decide (now - ts < window))).length ≥ limit
    · simp [h, alookup_aset_self]
    · simp [h, alookup_aset_self]
  · norm_num [rlRun, checkRateLimit, alookup, aset, List.filter]

/-- Claim C8: for every batch that `track_gpu_usage` accepts, the returned
hourly savings figure is the sum of `cost_per_hour * 0.5` over the records
with utilization below 15 (others contribute zero), and the monthly
projection is that figure times 24 times 30. -/
theorem claim_C8_savings_sum (now : ℚ) (apiKey : String)
    (gpuData : List GpuSample) (st : RMState) (r : TrackOk)
    (h : (trackGpuUsage now apiKey gpuData st).1 = Except.ok r) :
    r.potentialHourlySavings =
      (gpuData.map (fun g =>
        if g.gpuUtil < 15 then (g.costPerHour.getD 3) * (1 / 2) else 0)).sum ∧
    r.monthlyProjection = r.potentialHourlySavings * 24 * 30 ∧
    r.gpusMonitored = gpuData.length := by
  rcases hq : getCustomerByApiKey now apiKey st with ⟨o, st1⟩
  unfold trackGpuUsage at h
  rw [hq] at h
  cases o with
  | none => simp at h
  | some cust =>
    by_cases hcond :
        (cust.tier == "free" && decide (gpuData.length > freeGpuLimit)) = true
    · simp [hcond] at h
    · simp only [hcond, Bool.false_eq_true, if_false, if_neg,
        batchProcessGpuData] at h
      obtain rfl := Except.ok.inj h
      refine ⟨?_, rfl, rfl⟩
      have := batchFold_total cust.email gpuData 0 []
      simpa using this

/-- Claim C8 witness: the spec's end-to-end example — one record with
utilization 5 and cost-per-hour 3.0 yields hourly savings 1.5 and monthly
projection 1080.0. -/
theorem claim_C8_witness :
    (trackGpuUsage 0 c8Key c8Data c8St).1 = Except.ok c8Res ∧
    (c8Res.potentialHourlySavings =
       (c8Data.map (fun g =>
         if g.gpuUtil < 15 then (g.costPerHour.getD 3) * (1 / 2) else 0)).sum ∧
     c8Res.monthlyProjection = c8Res.potentialHourlySavings * 24 * 30 ∧
     c8Res.gpusMonitored = c8Data.length) ∧
    c8Res.potentialHourlySavings = 3 / 2 ∧
    c8Res.monthlyProjection = 1080 := by
  have h : (trackGpuUsage 0 c8Key c8Data c8St).1 = Except.ok c8Res := by
    have h1 : (trackGpuUsage 0 c8Key c8Data c8St).1 =
        Except.ok ⟨1, 0 + 3 * (1 / 2), (0 + 3 * (1 / 2)) * 24 * 30, "free"⟩ := rfl
    rw [h1]
    norm_num [c8Res]
  exact ⟨h, claim_C8_savings_sum 0 c8Key c8Data c8St c8Res h, rfl, rfl⟩

/-- Claim C9 counterexample: the input email `de<v@example.com` contains a
quote/control character from the claim's list (`<`), yet `create_customer`
does not reject it: `sanitize_input` strips the character first, and a
customer is created under the silently rewritten address
`dev@example.com`. -/
theorem counterexample_C9_stripped_email_accepted :
    (createCustomer 0 "de<v@example.com" c9Key RMState.empty).1 =
      Except.ok c9Cust ∧
    c9Cust.email = "dev@example.com" ∧
    (createCustomer 0 "de<v@example.com" c9Key RMState.empty).2.customers =
      [c9Cust] := by
  decide

/-- Claim C9 (amended): `create_customer` strips the characters
`<`, `>`, double quote, single quote, `;`, `\` from the input, then
validates the stripped email; it rejects with a validation error and
creates no record exactly when the stripped email fails validation
(syntax, consecutive dots, leading/trailing dot, length over 255) — the
state is returned untouched. -/
theorem claim_C9_sanitized_email_validation
    (now : ℚ) (email freshKey : String) (st : RMState)
    (h : validateEmail (sanitizeInput email) = false) :
    (createCustomer now email freshKey st).1 =
      Except.error "Invalid email format" ∧
    (createCustomer now email freshKey st).2 = st := by
  unfold createCustomer
  simp [h]

/-- Claim C9 witness: an email with consecutive dots is rejected and the
state is unchanged. -/
theorem claim_C9_witness :
    validateEmail (sanitizeInput "a..b@example.com") = false ∧
    ((createCustomer 0 "a..b@example.com" c9Key RMState.empty).1 =
       Except.error "Invalid email format" ∧
     (createCustomer 0 "a..b@example.com" c9Key RMState.empty).2 =
       RMState.empty) :=
  ⟨by decide,
   claim_C9_sanitized_email_validation 0 "a..b@example.com" c9Key RMState.empty
     (by decide)⟩

/-- Claim C3 witness: the amended theorem applied to the concrete completed
transaction. -/
theorem claim_C3_witness :
    (∃ r', r' ∈ (updatePaymentStatus 1 "p1" "failed" none c3St).payments ∧
       r'.paymentId = "p1" ∧ r'.status = "failed") ∧
    (∃ r', r' ∈ (storePaymentTransaction 2 "bob@x.com" "p1" "flutterwave" 49
         "USD" "pending" "m2" c3St).payments ∧
       r'.paymentId = "p1" ∧ r'.status = "pending") :=
  ⟨claim_C3_amended_unconditional_status_writes.1 1 "p1" "failed" none c3St
     c3Tx (by decide) rfl,
   (claim_C3_amended_unconditional_status_writes.2 2 "bob@x.com" "p1"
     "flutterwave" 49 "USD" "pending" "m2" c3St).1⟩

end GPUOpt
